import Mathlib

/-!
Shallow embedding of the rpi-lightpen GPIO driver (src/rpi_lightpen.c) and
verification of its specification claims.

The driver keeps a set of file-scope global variables (`lastvsync`, `lastlp`,
`xpos`, `ypos`, `lp_button`, `usecoffset`, `oddeven`, `have_data`), mutated by
the IRQ handler `gpio_ts_handler` and by the file operations `gpio_ts_open`,
`gpio_ts_release`, `gpio_ts_read`, `gpio_ts_poll`.  We model the globals as a
state record `DState`, the two rising-edge interrupt sources as an `Event`
type, and each C function as a Lean function on that state.  Timestamps are
microsecond integers (the C code derives them from `getnstimeofday` as
`tv_sec * 1000000 + tv_nsec / 1000` into a `long`); integer division in C
truncates toward zero, which is `Int.tdiv`.
-/

namespace RpiLightpen

/-- `PAL_LINE_LENGTH` from rpi_lightpen.c (line 60): the scan-line period in
microseconds, used as the modulus for X-coordinate decoding. -/
def PAL_LINE_LENGTH : Int := 64

/-- The driver's global decoder/slot state: the file-scope C globals
`lp_button`, `lastvsync`, `lastlp`, `xpos`, `ypos`, `have_data`,
`usecoffset`, `oddeven` (rpi_lightpen.c lines 136-144).  All are
zero-initialised statics. -/
structure DState where
  lp_button : Int
  lastvsync : Int
  lastlp : Int
  xpos : Int
  ypos : Int
  have_data : Bool
  usecoffset : Int
  oddeven : Int
deriving DecidableEq

/-- The initial global state: C statics are zero-initialised, and
`gpio_ts_init` additionally sets `have_data = false` (line 280). -/
def initState : DState :=
  { lp_button := 0, lastvsync := 0, lastlp := 0, xpos := 0, ypos := 0,
    have_data := false, usecoffset := 0, oddeven := 0 }

/-- A rising-edge interrupt.  `lp t parity button` is an edge on the light-pen
sensor line (device `num = 0`) at microsecond timestamp `t`, where `parity`
and `button` are the values `gpio_get_value` would return for the odd/even
line and the button line at that instant.  `vsync t` is an edge on the VSYNC
line (device `num = 1`). -/
inductive Event where
  | lp (t parity button : Int)
  | vsync (t : Int)
deriving DecidableEq

/-- Whether an event is a light-pen edge. -/
def isLP : Event → Bool
  | .lp _ _ _ => true
  | .vsync _ => false

/-- The IRQ handler `gpio_ts_handler` (rpi_lightpen.c lines 205-248) acting on
the global state.  Returns the new state together with the wake-up target:
`some n` when `wake_up(&devinfo->waitqueue)` is called on device `n`'s wait
queue, `none` when no wake-up happens.

For the light-pen device (`num == 0`) the handler first stores the odd/even
line value in `oddeven`, then, if `(usecs - lastlp) > 128 && (oddeven != 0)`,
records `lastlp = usecs`, samples the button, computes
`usecoffset = usecs - lastvsync`, `ypos = usecoffset / PAL_LINE_LENGTH`
(C truncating division), `xpos = usecoffset - ypos * PAL_LINE_LENGTH`, sets
`have_data` and wakes device 0's wait queue.  For the VSYNC device
(`num == 1`) it only records `lastvsync = usecs` and resets `lastlp = usecs`;
no wake-up. -/
def gpio_ts_handler : DState → Event → DState × Option Nat
  | s, .lp t parity button =>
    let s1 := { s with oddeven := parity }
    if 128 < t - s1.lastlp ∧ parity ≠ 0 then
      let off := t - s1.lastvsync
      let y := Int.tdiv off PAL_LINE_LENGTH
      ({ s1 with lastlp := t, lp_button := button, usecoffset := off,
                 ypos := y, xpos := off - y * PAL_LINE_LENGTH,
                 have_data := true }, some 0)
    else (s1, none)
  | s, .vsync t => ({ s with lastvsync := t, lastlp := t }, none)

/-- Run a sequence of edge events from a given state, discarding wake-ups. -/
def runFrom (s : DState) (events : List Event) : DState :=
  events.foldl (fun s e => (gpio_ts_handler s e).1) s

/-- Run a sequence of edge events from the initial (post-`gpio_ts_init`)
state. -/
def run (events : List Event) : DState :=
  runFrom initState events

/-- The record built by `sprintf(message, "%i,%i,%i\n", xpos, ypos,
lp_button)` in `gpio_ts_read` (line 164): decimal fields joined by commas,
terminated by a newline. -/
def sprintfMsg (x y b : Int) : String :=
  toString x ++ "," ++ toString y ++ "," ++ toString b ++ "\n"

/-- Result of a `read` call on the device file.  `ok msg len` is a successful
read returning `len = strlen(message)` bytes (the record without any NUL
terminator); `eagain` is `-EAGAIN` (non-blocking read with no data); `efault`
is `-EFAULT` (`copy_to_user` failed); `blocked` marks a blocking read that
found `have_data` false and entered `wait_event` (it stays suspended until a
wake-up arrives on its device's wait queue with `have_data` true). -/
inductive ReadRes where
  | eagain
  | efault
  | blocked
  | ok (msg : String) (len : Nat)
deriving DecidableEq

/-- `gpio_ts_read` (rpi_lightpen.c lines 149-172).  `nonblock` is
`filp->f_flags & O_NONBLOCK`; `copyFails` tells whether `copy_to_user`
returns nonzero.  When data is available it formats the record; if the copy
to the user buffer fails it returns `-EFAULT` *without* clearing
`have_data`; otherwise it clears `have_data` and returns the record and its
`strlen`. -/
def gpio_ts_read (s : DState) (nonblock : Bool) (copyFails : Bool) :
    ReadRes × DState :=
  if s.have_data then
    let msg := sprintfMsg s.xpos s.ypos s.lp_button
    if copyFails then (.efault, s)
    else (.ok msg msg.length, { s with have_data := false })
  else if nonblock then (.eagain, s)
  else (.blocked, s)

/-- `POLLIN` event mask bit. -/
def POLLIN : Nat := 1

/-- `POLLPRI` event mask bit. -/
def POLLPRI : Nat := 2

/-- `gpio_ts_poll` (rpi_lightpen.c lines 178-194) for the device file of
device `dev`.  It tests the single *global* `have_data` flag: if set it
returns `POLLPRI | POLLIN` (without registering a wait queue); otherwise it
returns a zero mask after registering device `dev`'s wait queue in the poll
table (`poll_wait(filp, &devinfo->waitqueue, polltable)`), reported here as
the second component. -/
def gpio_ts_poll (dev : Nat) (s : DState) : Nat × Option Nat :=
  if s.have_data then (POLLPRI + POLLIN, none)
  else (0, some dev)

/-- `EBUSY` errno. -/
def EBUSY : Int := 16

/-- `gpio_ts_open` (rpi_lightpen.c lines 109-121) acting on a device's
`opencount`: returns the syscall result (`0` or `-EBUSY`) and the new
`opencount`.  If `opencount > 0` it fails with `-EBUSY` and leaves the count
unchanged; otherwise it increments the count. -/
def gpio_ts_open (opencount : Int) : Int × Int :=
  if 0 < opencount then (-EBUSY, opencount) else (0, opencount + 1)

/-- `gpio_ts_release` (rpi_lightpen.c lines 126-133) acting on a device's
`opencount`: it only decrements the count (`opencount--`). -/
def gpio_ts_release (opencount : Int) : Int :=
  opencount - 1

/-- Combined system state: the decoder globals together with the two device
entries' `opencount` fields (`devtable[0]`, `devtable[1]`). -/
structure Sys where
  d : DState
  opencount0 : Int
  opencount1 : Int
deriving DecidableEq

/-- An action on the combined system: an interrupt, or a `release` (close) of
device `dev`'s file. -/
inductive Act where
  | irq (e : Event)
  | release (dev : Nat)

/-- One system step.  Returns the new system state and the wake-up target, if
any.  An interrupt runs `gpio_ts_handler`; a `release` runs
`gpio_ts_release` on the corresponding `opencount` — the C function touches
nothing else and performs no wake-up. -/
def sysStep (sys : Sys) (a : Act) : Sys × Option Nat :=
  match a with
  | .irq e =>
    let p := gpio_ts_handler sys.d e
    ({ sys with d := p.1 }, p.2)
  | .release dev =>
    if dev = 0 then
      ({ sys with opencount0 := gpio_ts_release sys.opencount0 }, none)
    else
      ({ sys with opencount1 := gpio_ts_release sys.opencount1 }, none)

/-- `EINVAL` errno. -/
def EINVAL : Int := 22

/-- `ENODEV` errno. -/
def ENODEV : Int := 19

set_option linter.unusedVariables false in
/-- The startup sanity checks of `gpio_ts_init` (rpi_lightpen.c lines
287-309), the phase that validates the supplied line identifiers before any
device or IRQ is set up.  `valid` stands for the kernel's `gpio_is_valid`
predicate.  The checks are, in source order: the module must receive exactly
two edge GPIOs (`-EINVAL` otherwise); each of the two edge GPIOs must be
valid (`-ENODEV`); `gpio_lp_button` must be valid (`-ENODEV`); and then —
faithfully mirroring the source — line 306 tests `gpio_is_valid(gpio_lp_button)`
*again* (while its error message talks about the odd/even frame indicator):
`gpio_odd_even` itself is never validated. -/
def gpio_ts_init_checks (valid : Int → Bool) (gpio_ts_nb_gpios : Int)
    (gpio0 gpio1 gpio_lp_button gpio_odd_even : Int) : Except Int Unit :=
  if gpio_ts_nb_gpios ≠ 2 then .error (-EINVAL)
  else if ¬ valid gpio0 then .error (-ENODEV)
  else if ¬ valid gpio1 then .error (-ENODEV)
  else if ¬ valid gpio_lp_button then .error (-ENODEV)
  else if ¬ valid gpio_lp_button then .error (-ENODEV)
  else .ok ()

/-- Model of the Linux kernel's `gpio_is_valid` (external to this
repository): a GPIO number is valid when it is non-negative and below the
architecture's GPIO count. -/
def linuxGpioValid (g : Int) : Bool :=
  decide (0 ≤ g ∧ g < 512)

/-! ## Helper lemmas -/

/-- C truncating division (`Int.tdiv`) agrees with Euclidean division on
non-negative dividends. -/
theorem tdiv_nonneg_eq_ediv (a : Int) (h : 0 ≤ a) : a.tdiv 64 = a / 64 := by
  rcases Int.eq_ofNat_of_zero_le h with ⟨n, rfl⟩
  rfl

/-- A qualifying light-pen edge (outside the debounce window, parity line
nonzero): explicit form of the resulting state and the wake-up of device 0's
wait queue. -/
theorem handler_lp_pos (s : DState) (t p b : Int)
    (h : 128 < t - s.lastlp ∧ p ≠ 0) :
    gpio_ts_handler s (.lp t p b) =
      ({ lp_button := b, lastvsync := s.lastvsync, lastlp := t,
         xpos := (t - s.lastvsync) - Int.tdiv (t - s.lastvsync) 64 * 64,
         ypos := Int.tdiv (t - s.lastvsync) 64, have_data := true,
         usecoffset := t - s.lastvsync, oddeven := p }, some 0) := by
  dsimp only [gpio_ts_handler]
  rw [if_pos h]
  rfl

/-- A non-qualifying light-pen edge only records the odd/even line value;
no other global changes and no wake-up. -/
theorem handler_lp_neg (s : DState) (t p b : Int)
    (h : ¬(128 < t - s.lastlp ∧ p ≠ 0)) :
    gpio_ts_handler s (.lp t p b) = ({ s with oddeven := p }, none) := by
  dsimp only [gpio_ts_handler]
  rw [if_neg h]

/-- A trace consisting only of light-pen edges never writes `lastvsync`. -/
theorem runFrom_lastvsync_of_all_lp (s : DState) (tr : List Event)
    (h : tr.all isLP = true) : (runFrom s tr).lastvsync = s.lastvsync := by
  induction tr generalizing s with
  | nil => rfl
  | cons e tr ih =>
    cases e with
    | lp t p b =>
      have h2 : tr.all isLP = true := by
        rw [List.all_cons] at h
        exact (Bool.and_eq_true _ _ |>.mp h).2
      rw [runFrom, List.foldl_cons]
      rw [show (List.foldl (fun s e => (gpio_ts_handler s e).1)
            (gpio_ts_handler s (.lp t p b)).1 tr) =
            runFrom (gpio_ts_handler s (.lp t p b)).1 tr from rfl]
      rw [ih _ h2]
      by_cases hc : 128 < t - s.lastlp ∧ p ≠ 0
      · rw [handler_lp_pos s t p b hc]
      · rw [handler_lp_neg s t p b hc]
    | vsync t =>
      simp [isLP, List.all_cons] at h

/-! ## Claims -/

/-- Claim C1, counterexample.  The claim states that no sample is ever
produced before at least one VSync edge has been observed and that a
light-pen edge arriving before any VSync edge produces no sample.  This is
false on the code: from the initial state (all globals zero), a light-pen
edge at t = 500 µs with parity 1 passes the debounce test
(500 − 0 > 128), so a sample is produced (x = 52, y = 7), `have_data`
becomes true, and poll reports the channel ready. -/
theorem c1_sample_before_vsync_counterexample :
    (run [.lp 500 1 1]).have_data = true ∧
    (run [.lp 500 1 1]).xpos = 52 ∧ (run [.lp 500 1 1]).ypos = 7 ∧
    (gpio_ts_poll 0 (run [.lp 500 1 1])).1 = POLLPRI + POLLIN := by decide

/-- Claim C1, amended.  Before any VSync edge has been observed,
`lastvsync` still holds its initial value 0 and light-pen edges are *not*
ignored: an edge at timestamp t produces a sample (and wakes the reader) iff
it passes the debounce and parity gates (t − lastlp > 128 and parity ≠ 0),
and the produced sample is decoded as though a VSync had occurred at time 0
(offset = t). -/
theorem c1_amended_pre_vsync_decode (tr : List Event) (t p b : Int)
    (h : tr.all isLP = true) :
    (run tr).lastvsync = 0 ∧
    ((gpio_ts_handler (run tr) (.lp t p b)).2 = some 0 ↔
      128 < t - (run tr).lastlp ∧ p ≠ 0) ∧
    (128 < t - (run tr).lastlp → p ≠ 0 →
      (gpio_ts_handler (run tr) (.lp t p b)).1.have_data = true ∧
      (gpio_ts_handler (run tr) (.lp t p b)).1.usecoffset = t) := by
  have hv : (run tr).lastvsync = 0 := runFrom_lastvsync_of_all_lp initState tr h
  refine ⟨hv, ?_, ?_⟩
  · constructor
    · intro hw
      by_cases hc : 128 < t - (run tr).lastlp ∧ p ≠ 0
      · exact hc
      · rw [handler_lp_neg _ _ _ _ hc] at hw
        exact absurd hw (by simp)
    · intro hc
      rw [handler_lp_pos _ _ _ _ hc]
  · intro h1 h2
    rw [handler_lp_pos _ _ _ _ ⟨h1, h2⟩]
    exact ⟨rfl, by dsimp only; omega⟩

/-- Witness for the amended C1 theorem at the concrete trace
[lp 500 1 1] followed by a light-pen edge at t = 2000 µs. -/
theorem c1_amended_pre_vsync_decode_witness :
    ([Event.lp 500 1 1].all isLP = true) ∧
    ((run [Event.lp 500 1 1]).lastvsync = 0 ∧
     ((gpio_ts_handler (run [Event.lp 500 1 1]) (.lp 2000 1 0)).2 = some 0 ↔
       128 < 2000 - (run [Event.lp 500 1 1]).lastlp ∧ (1 : Int) ≠ 0) ∧
     (128 < 2000 - (run [Event.lp 500 1 1]).lastlp → (1 : Int) ≠ 0 →
       (gpio_ts_handler (run [Event.lp 500 1 1]) (.lp 2000 1 0)).1.have_data = true ∧
       (gpio_ts_handler (run [Event.lp 500 1 1]) (.lp 2000 1 0)).1.usecoffset = 2000)) :=
  ⟨by decide, c1_amended_pre_vsync_decode [Event.lp 500 1 1] 2000 1 0 (by decide)⟩

/-- Claim C2: for every qualifying light-pen edge at timestamp t with v the
most recently recorded VSync timestamp (v ≤ t), the produced sample
satisfies y = (t − v) div lineLengthUs and x = (t − v) mod lineLengthUs, and
therefore 0 ≤ x < lineLengthUs and 0 ≤ y.  (The code computes
ypos = usecoffset / 64 by C truncating division and
xpos = usecoffset − ypos·64; for v ≤ t these agree with div/mod.) -/
theorem c2_qualifying_decode (s : DState) (t p b : Int)
    (hdeb : 128 < t - s.lastlp) (hpar : p ≠ 0) (hv : s.lastvsync ≤ t) :
    (gpio_ts_handler s (.lp t p b)).1.ypos = (t - s.lastvsync) / PAL_LINE_LENGTH ∧
    (gpio_ts_handler s (.lp t p b)).1.xpos = (t - s.lastvsync) % PAL_LINE_LENGTH ∧
    0 ≤ (gpio_ts_handler s (.lp t p b)).1.xpos ∧
    (gpio_ts_handler s (.lp t p b)).1.xpos < PAL_LINE_LENGTH ∧
    0 ≤ (gpio_ts_handler s (.lp t p b)).1.ypos := by
  have hoff : (0 : Int) ≤ t - s.lastvsync := by omega
  have hbr := tdiv_nonneg_eq_ediv (t - s.lastvsync) hoff
  rw [handler_lp_pos _ _ _ _ ⟨hdeb, hpar⟩]
  dsimp only [PAL_LINE_LENGTH]
  rw [hbr]
  omega

/-- Witness for C2 at the concrete qualifying edge t = 1000 µs from the
initial state (v = 0 ≤ 1000). -/
theorem c2_qualifying_decode_witness :
    (128 < (1000 : Int) - initState.lastlp) ∧ ((1 : Int) ≠ 0) ∧
    (initState.lastvsync ≤ (1000 : Int)) ∧
    ((gpio_ts_handler initState (.lp 1000 1 1)).1.ypos =
        (1000 - initState.lastvsync) / PAL_LINE_LENGTH ∧
     (gpio_ts_handler initState (.lp 1000 1 1)).1.xpos =
        (1000 - initState.lastvsync) % PAL_LINE_LENGTH ∧
     0 ≤ (gpio_ts_handler initState (.lp 1000 1 1)).1.xpos ∧
     (gpio_ts_handler initState (.lp 1000 1 1)).1.xpos < PAL_LINE_LENGTH ∧
     0 ≤ (gpio_ts_handler initState (.lp 1000 1 1)).1.ypos) :=
  ⟨by decide, by decide, by decide,
   c2_qualifying_decode initState 1000 1 1 (by decide) (by decide) (by decide)⟩

/-- Claim C3: a light-pen edge inside the debounce window
(t − lastlp ≤ 128, where `lastlp` is the debounce floor recorded at the
previous qualifying edge or reset at a VSync) or with the parity line
reading 0 is silently discarded: the only state change is that the
`oddeven` global records the sampled parity value — the sample slot,
`have_data`, and everything the reader can observe are unchanged — and no
wait queue is woken. -/
theorem c3_nonqualifying_discard (s : DState) (t p b : Int)
    (h : t - s.lastlp ≤ 128 ∨ p = 0) :
    gpio_ts_handler s (.lp t p b) = ({ s with oddeven := p }, none) := by
  apply handler_lp_neg
  intro hc
  rcases h with h | h
  · omega
  · exact hc.2 h

/-- Witness for C3: an edge at t = 100 µs from the initial state is inside
the debounce window (100 − 0 ≤ 128) and is discarded. -/
theorem c3_nonqualifying_discard_witness :
    ((100 : Int) - initState.lastlp ≤ 128 ∨ (1 : Int) = 0) ∧
    gpio_ts_handler initState (.lp 100 1 0) =
      ({ initState with oddeven := 1 }, none) :=
  ⟨by decide, c3_nonqualifying_discard initState 100 1 0 (by decide)⟩

/-- Claim C4: if two samples are produced (two qualifying light-pen edges,
each signalled by the `some 0` wake-up) before any read, the slot holds only
the second sample — its button, offset, y and x are those decoded from the
second edge's timestamp t2 against the unchanged `lastvsync`; the first
sample is gone.  A read then returns the second sample's record exactly
once: it clears `have_data`, and a following non-blocking read returns
`-EAGAIN` (WouldBlock).  The single slot (`have_data` plus one set of
coordinate globals) holds at most one pending sample. -/
theorem c4_last_write_wins (s s1 s2 : DState) (t1 p1 b1 t2 p2 b2 : Int)
    (h1 : gpio_ts_handler s (.lp t1 p1 b1) = (s1, some 0))
    (h2 : gpio_ts_handler s1 (.lp t2 p2 b2) = (s2, some 0)) :
    s2.lp_button = b2 ∧
    s2.usecoffset = t2 - s.lastvsync ∧
    s2.ypos = Int.tdiv (t2 - s.lastvsync) 64 ∧
    s2.xpos = (t2 - s.lastvsync) - Int.tdiv (t2 - s.lastvsync) 64 * 64 ∧
    s2.have_data = true ∧
    (gpio_ts_read s2 false false).1 =
      ReadRes.ok (sprintfMsg s2.xpos s2.ypos b2) (sprintfMsg s2.xpos s2.ypos b2).length ∧
    (gpio_ts_read s2 false false).2.have_data = false ∧
    (gpio_ts_read (gpio_ts_read s2 false false).2 true false).1 = ReadRes.eagain := by
  by_cases hc1 : 128 < t1 - s.lastlp ∧ p1 ≠ 0
  case neg => rw [handler_lp_neg _ _ _ _ hc1] at h1; simp at h1
  rw [handler_lp_pos _ _ _ _ hc1] at h1
  injection h1 with e1 w1
  subst e1
  by_cases hc2 : 128 < t2 - t1 ∧ p2 ≠ 0
  case neg => rw [handler_lp_neg _ _ _ _ hc2] at h2; simp at h2
  rw [handler_lp_pos _ _ _ _ hc2] at h2
  injection h2 with e2 w2
  subst e2
  refine ⟨rfl, rfl, rfl, rfl, rfl, ?_, ?_, ?_⟩ <;>
    simp [gpio_ts_read]

/-- Witness for C4: VSync at t = 0, then qualifying edges at t = 1000 µs
(button 1) and t = 2000 µs (button 0); only the second sample (x = 16,
y = 31, button 0) is observable, exactly once. -/
theorem c4_last_write_wins_witness :
    (gpio_ts_handler (run [Event.vsync 0]) (.lp 1000 1 1) =
      (run [Event.vsync 0, Event.lp 1000 1 1], some 0)) ∧
    (gpio_ts_handler (run [Event.vsync 0, Event.lp 1000 1 1]) (.lp 2000 1 0) =
      (run [Event.vsync 0, Event.lp 1000 1 1, Event.lp 2000 1 0], some 0)) ∧
    ((run [Event.vsync 0, Event.lp 1000 1 1, Event.lp 2000 1 0]).lp_button = 0 ∧
     (run [Event.vsync 0, Event.lp 1000 1 1, Event.lp 2000 1 0]).usecoffset =
        2000 - (run [Event.vsync 0]).lastvsync ∧
     (run [Event.vsync 0, Event.lp 1000 1 1, Event.lp 2000 1 0]).ypos =
        Int.tdiv (2000 - (run [Event.vsync 0]).lastvsync) 64 ∧
     (run [Event.vsync 0, Event.lp 1000 1 1, Event.lp 2000 1 0]).xpos =
        (2000 - (run [Event.vsync 0]).lastvsync) -
          Int.tdiv (2000 - (run [Event.vsync 0]).lastvsync) 64 * 64 ∧
     (run [Event.vsync 0, Event.lp 1000 1 1, Event.lp 2000 1 0]).have_data = true ∧
     (gpio_ts_read (run [Event.vsync 0, Event.lp 1000 1 1, Event.lp 2000 1 0]) false false).1 =
        ReadRes.ok
          (sprintfMsg (run [Event.vsync 0, Event.lp 1000 1 1, Event.lp 2000 1 0]).xpos
            (run [Event.vsync 0, Event.lp 1000 1 1, Event.lp 2000 1 0]).ypos 0)
          (sprintfMsg (run [Event.vsync 0, Event.lp 1000 1 1, Event.lp 2000 1 0]).xpos
            (run [Event.vsync 0, Event.lp 1000 1 1, Event.lp 2000 1 0]).ypos 0).length ∧
     (gpio_ts_read (run [Event.vsync 0, Event.lp 1000 1 1, Event.lp 2000 1 0])
        false false).2.have_data = false ∧
     (gpio_ts_read
        (gpio_ts_read (run [Event.vsync 0, Event.lp 1000 1 1, Event.lp 2000 1 0]) false false).2
        true false).1 = ReadRes.eagain) :=
  ⟨by decide, by decide,
   c4_last_write_wins (run [Event.vsync 0]) (run [Event.vsync 0, Event.lp 1000 1 1])
     (run [Event.vsync 0, Event.lp 1000 1 1, Event.lp 2000 1 0])
     1000 1 1 2000 1 0 (by decide) (by decide)⟩

/-- Claim C5: every successful read returns exactly the ASCII record
"x,y,button\n" for the pending sample — decimal fields, commas as the only
delimiters, a terminating newline, and the returned length counts no NUL
terminator.  Scenario A: VSync at t = 0 and a qualifying light-pen edge at
t = 1000 µs with parity 1 and button 1 yields the record "40,15,1\n" of
length 8. -/
theorem c5_read_wire_format (s : DState) (nb : Bool) (h : s.have_data = true) :
    (gpio_ts_read s nb false).1 =
      ReadRes.ok (sprintfMsg s.xpos s.ypos s.lp_button)
        (sprintfMsg s.xpos s.ypos s.lp_button).length ∧
    sprintfMsg s.xpos s.ypos s.lp_button =
      toString s.xpos ++ "," ++ toString s.ypos ++ "," ++ toString s.lp_button ++ "\n" ∧
    (gpio_ts_read (run [.vsync 0, .lp 1000 1 1]) false false).1 =
      ReadRes.ok "40,15,1\n" 8 := by
  refine ⟨?_, rfl, by decide⟩
  simp [gpio_ts_read, h]

/-- Witness for C5 at the Scenario A state. -/
theorem c5_read_wire_format_witness :
    ((run [Event.vsync 0, Event.lp 1000 1 1]).have_data = true) ∧
    ((gpio_ts_read (run [Event.vsync 0, Event.lp 1000 1 1]) false false).1 =
      ReadRes.ok
        (sprintfMsg (run [Event.vsync 0, Event.lp 1000 1 1]).xpos
          (run [Event.vsync 0, Event.lp 1000 1 1]).ypos
          (run [Event.vsync 0, Event.lp 1000 1 1]).lp_button)
        (sprintfMsg (run [Event.vsync 0, Event.lp 1000 1 1]).xpos
          (run [Event.vsync 0, Event.lp 1000 1 1]).ypos
          (run [Event.vsync 0, Event.lp 1000 1 1]).lp_button).length ∧
     sprintfMsg (run [Event.vsync 0, Event.lp 1000 1 1]).xpos
        (run [Event.vsync 0, Event.lp 1000 1 1]).ypos
        (run [Event.vsync 0, Event.lp 1000 1 1]).lp_button =
       toString (run [Event.vsync 0, Event.lp 1000 1 1]).xpos ++ "," ++
       toString (run [Event.vsync 0, Event.lp 1000 1 1]).ypos ++ "," ++
       toString (run [Event.vsync 0, Event.lp 1000 1 1]).lp_button ++ "\n" ∧
     (gpio_ts_read (run [.vsync 0, .lp 1000 1 1]) false false).1 =
       ReadRes.ok "40,15,1\n" 8) :=
  ⟨by decide, c5_read_wire_format (run [Event.vsync 0, Event.lp 1000 1 1]) false (by decide)⟩

/-- Claim C6: opening a device whose `opencount` is already 1 fails with
`-EBUSY` and leaves the count unchanged; opening with count 0 succeeds and
sets it to 1; release sets it back to 0, after which a subsequent open
succeeds again. -/
theorem c6_session_exclusivity :
    gpio_ts_open 1 = (-EBUSY, 1) ∧
    gpio_ts_open 0 = (0, 1) ∧
    gpio_ts_release 1 = 0 ∧
    gpio_ts_open (gpio_ts_release 1) = (0, 1) := by decide

/-- Claim C7, counterexample.  The claim states that a reader on the VSync
endpoint never receives a sample from a blocking read and that its poll
always reports not-ready.  This is false on the code: `have_data` and the
sample slot are single *globals* shared by both device files, and neither
`gpio_ts_poll` nor the data path of `gpio_ts_read` inspects which device is
being polled or read.  After VSync at t = 0 and a qualifying light-pen edge
at t = 1000 µs, poll on device 1 (the VSync endpoint) reports
POLLPRI | POLLIN, and a blocking read on that device returns the pending
sample "40,15,1\n" immediately. -/
theorem c7_vsync_endpoint_counterexample :
    (gpio_ts_poll 1 (run [.vsync 0, .lp 1000 1 1])).1 = POLLPRI + POLLIN ∧
    (gpio_ts_read (run [.vsync 0, .lp 1000 1 1]) false false).1 =
      ReadRes.ok "40,15,1\n" 8 := by decide

/-- Claim C7, amended.  Readiness is global, not per-endpoint: poll returns
the same mask on every device; whenever a light-pen sample is pending, poll
on the VSync endpoint reports ready and a read on it returns the sample.
Only a VSync-endpoint reader that blocks while no sample is pending sleeps
forever: poll with no data registers the polling device's own wait queue,
and no interrupt ever wakes any queue other than device 0's (the handler's
wake-up target is always `some 0` or `none`). -/
theorem c7_amended_global_readiness (dev dev2 : Nat) (s : DState) (e : Event) :
    (gpio_ts_poll dev s).1 = (gpio_ts_poll dev2 s).1 ∧
    ((gpio_ts_handler s e).2 = none ∨ (gpio_ts_handler s e).2 = some 0) ∧
    ((gpio_ts_poll dev s).2 = none ∨ (gpio_ts_poll dev s).2 = some dev) ∧
    (gpio_ts_poll 1 (run [.vsync 0, .lp 1000 1 1])).1 = POLLPRI + POLLIN := by
  refine ⟨?_, ?_, ?_, by decide⟩
  · simp only [gpio_ts_poll]
    split <;> rfl
  · cases e with
    | lp t p b =>
      by_cases hc : 128 < t - s.lastlp ∧ p ≠ 0
      · rw [handler_lp_pos _ _ _ _ hc]; right; rfl
      · rw [handler_lp_neg _ _ _ _ hc]; left; rfl
    | vsync t => left; rfl
  · simp only [gpio_ts_poll]
    split
    · left; rfl
    · right; rfl

/-- Claim C8, counterexample.  The claim states that a reader blocked in a
blocking read whose session is closed concurrently is unblocked with a
Closed/Cancelled error.  This is false on the code: with no data pending a
blocking read enters `wait_event` (modelled as the `blocked` result), and
`gpio_ts_release` only decrements `opencount` — at the concrete system state
(reader blocked on the open light-pen device) a release step leaves every
decoder/slot global unchanged and performs no wake-up, so the reader's wait
condition stays false and it is never unblocked, let alone with an error
(`gpio_ts_read` has no cancelled/closed result at all). -/
theorem c8_release_no_cancel_counterexample :
    (gpio_ts_read initState false false).1 = ReadRes.blocked ∧
    sysStep { d := initState, opencount0 := 1, opencount1 := 0 } (.release 0) =
      ({ d := initState, opencount0 := 0, opencount1 := 0 }, none) := by decide

/-- Claim C8, amended.  Closing a session never unblocks a blocked reader:
a release step leaves the decoder/slot globals (including `have_data`, the
wait condition of the blocked read) unchanged and wakes no wait queue; the
reader remains blocked until a qualifying light-pen edge sets `have_data`
and wakes it, and the read then completes normally — no Closed/Cancelled
result exists. -/
theorem c8_amended_release_never_unblocks (sys : Sys) (dev : Nat) :
    (sysStep sys (.release dev)).1.d = sys.d ∧
    (sysStep sys (.release dev)).2 = none := by
  simp only [sysStep]
  split <;> exact ⟨rfl, rfl⟩

/-- Claim C9 (code bug): the startup validation is required to reject any
invalid line identifier, but line 306 of rpi_lightpen.c re-tests
`gpio_is_valid(gpio_lp_button)` where its own error message ("invalid gpio
pin for odd/even frame indicator input", printing `gpio_odd_even`) shows the
odd/even pin was meant: with valid edge and button pins and an invalid
odd/even pin (−1), the checks pass (`ok`), so startup proceeds instead of
failing with ConfigurationInvalid.  The last two conjuncts show the checks
do reject an invalid edge pin and an invalid button pin. -/
theorem c9_odd_even_never_validated :
    gpio_ts_init_checks linuxGpioValid 2 4 17 27 (-1) = Except.ok () ∧
    linuxGpioValid (-1) = false ∧
    gpio_ts_init_checks linuxGpioValid 2 (-1) 17 27 5 = Except.error (-ENODEV) ∧
    gpio_ts_init_checks linuxGpioValid 2 4 17 (-1) 5 = Except.error (-ENODEV) :=
  ⟨rfl, by decide, rfl, rfl⟩

/-- Claim C10: if the copy of the formatted record to the caller's buffer
fails, read returns `-EFAULT` and, because `have_data = false` is only
executed after a successful copy, the readiness flag and the whole slot are
left intact; a subsequent read (with the copy succeeding, absent an
intervening overwrite) still delivers the same pending sample. -/
theorem c10_efault_preserves_sample (s : DState) (nb : Bool)
    (h : s.have_data = true) :
    (gpio_ts_read s nb true).1 = ReadRes.efault ∧
    (gpio_ts_read s nb true).2 = s ∧
    (gpio_ts_read (gpio_ts_read s nb true).2 nb false).1 =
      ReadRes.ok (sprintfMsg s.xpos s.ypos s.lp_button)
        (sprintfMsg s.xpos s.ypos s.lp_button).length := by
  simp [gpio_ts_read, h]

/-- Witness for C10 at the Scenario A state. -/
theorem c10_efault_preserves_sample_witness :
    ((run [Event.vsync 0, Event.lp 1000 1 1]).have_data = true) ∧
    ((gpio_ts_read (run [Event.vsync 0, Event.lp 1000 1 1]) false true).1 =
        ReadRes.efault ∧
     (gpio_ts_read (run [Event.vsync 0, Event.lp 1000 1 1]) false true).2 =
        run [Event.vsync 0, Event.lp 1000 1 1] ∧
     (gpio_ts_read (gpio_ts_read (run [Event.vsync 0, Event.lp 1000 1 1]) false true).2
        false false).1 =
        ReadRes.ok
          (sprintfMsg (run [Event.vsync 0, Event.lp 1000 1 1]).xpos
            (run [Event.vsync 0, Event.lp 1000 1 1]).ypos
            (run [Event.vsync 0, Event.lp 1000 1 1]).lp_button)
          (sprintfMsg (run [Event.vsync 0, Event.lp 1000 1 1]).xpos
            (run [Event.vsync 0, Event.lp 1000 1 1]).ypos
            (run [Event.vsync 0, Event.lp 1000 1 1]).lp_button).length) :=
  ⟨by decide,
   c10_efault_preserves_sample (run [Event.vsync 0, Event.lp 1000 1 1]) false (by decide)⟩

end RpiLightpen
